import Mathlib

/-!
Shallow embedding of the Wanted-Series page of the bazarr frontend
(`src/frontend/src/pages/Wanted/Series/index.tsx`) and of the shared table
style presets (`useTableStyles`).  Cell renderers become pure Lean
functions from the episode record to a description of the rendered
element; the click handler of a Missing badge becomes the list of tasks
its single firing enqueues.
-/

/-- Language entry of an episode's missing-subtitle list: two-letter code,
display name, hearing-impaired flag and forced flag. -/
structure LanguageItem where
  code2 : String
  name : String
  hi : Bool
  forced : Bool
  deriving Repr, DecidableEq

/-- The episode record shown by the Wanted-Series table
(`Wanted.Episode` in the frontend's types). -/
structure WantedEpisode where
  sonarrSeriesId : Nat
  sonarrEpisodeId : Nat
  seriesTitle : String
  episode_number : String
  episodeTitle : String
  path : String
  sceneName : Option String
  missing_subtitles : List LanguageItem
  deriving Repr, DecidableEq

/-- Modelled from the spec: the task facade groups background tasks by
category; the page only ever uses the search-subtitle category
(`TaskGroup.SearchSubtitle` of `@/modules/task`), other categories exist
elsewhere in the application. -/
inductive TaskGroup where
  | SearchSubtitle
  | Other (tag : String)
  deriving Repr, DecidableEq

/-- The `form` part of the payload handed to the download mutation. -/
structure SearchForm where
  language : String
  hi : Bool
  forced : Bool
  deriving Repr, DecidableEq

/-- Payload of an episode subtitle-search request:
`{seriesId, episodeId, form}`. -/
structure EpisodeSearchPayload where
  seriesId : Nat
  episodeId : Nat
  form : SearchForm
  deriving Repr, DecidableEq

/-- A task registered with the task-queue facade: name, group and the
argument its async function will receive. -/
structure TaskRecord where
  name : String
  group : TaskGroup
  payload : EpisodeSearchPayload
  deriving Repr, DecidableEq

/-- Modelled from the spec: `task.create(name, group, asyncFn, args)` of
the external task facade registers exactly one named, grouped background
task; we record the list of tasks one call enqueues. -/
def taskCreate (name : String) (group : TaskGroup)
    (payload : EpisodeSearchPayload) : List TaskRecord :=
  [{ name := name, group := group, payload := payload }]

/-- Modelled from the spec: the external `Language.Text` component labels
a badge with the language's display name. -/
def languageText (item : LanguageItem) : String :=
  item.name

/-- Names of the style presets produced by `useTableStyles`. -/
inductive StyleName where
  | primary
  | noWrap
  | select
  | width10em
  | width9em
  | width8em
  | width7em
  | width6em
  | width5em
  | width4em
  | width3em
  | width2em
  | width1em
  deriving Repr, DecidableEq

/-- Theme input of the style table: the breakpoint predicate supplied by
the host theming system (`theme.fn.smallerThan`). -/
structure Theme where
  smallerThan : String → Bool

/-- Rule set of one style preset; absent properties are `none`.  The
`minWidth` rule is the one guarded by the breakpoint predicate in the
source. -/
structure StyleRules where
  display : Option String := none
  minWidth : Option String := none
  whiteSpace : Option String := none
  width : Option String := none
  deriving Repr, DecidableEq

/-- The style preset table of `src/unnamed/part_000`: a pure mapping from
style name to rule set, parameterized by the theme's breakpoint
predicate. -/
def useTableStyles (theme : Theme) : StyleName → StyleRules
  | .primary =>
    { display := some "inline-block",
      minWidth := if theme.smallerThan "sm" then some "12rem" else none }
  | .noWrap => { whiteSpace := some "nowrap" }
  | .select =>
    { display := some "inline-block",
      minWidth := if theme.smallerThan "sm" then some "10rem" else none }
  | .width10em => { width := some "10em" }
  | .width9em => { width := some "9em" }
  | .width8em => { width := some "8em" }
  | .width7em => { width := some "7em" }
  | .width6em => { width := some "6em" }
  | .width5em => { width := some "5em" }
  | .width4em => { width := some "4em" }
  | .width3em => { width := some "3em" }
  | .width2em => { width := some "2em" }
  | .width1em => { width := some "1em" }

/-- The keys of the style preset table, in source order. -/
def styleKeys : List StyleName :=
  [.primary, .noWrap, .select,
   .width10em, .width9em, .width8em, .width7em, .width6em,
   .width5em, .width4em, .width3em, .width2em, .width1em]

/-- Accessor keys used by the column schema, all fields of the
episode record. -/
inductive Accessor where
  | seriesTitle
  | episode_number
  | episodeTitle
  | path
  | sceneName
  | missing_subtitles
  deriving Repr, DecidableEq

/-- A column descriptor: optional header label, accessor key and optional
extra class string (`className` of the Release column). -/
structure ColumnDescriptor where
  header : Option String
  accessor : Accessor
  className : Option String := none
  deriving Repr, DecidableEq

/-- Dependency array of the `useMemo` computing the column schema: empty,
so the schema is computed once. -/
def columnsDeps : List Unit := []

/-- The ordered column schema declared by the Wanted-Series page. -/
def columns : List ColumnDescriptor :=
  [{ header := some "Name", accessor := .seriesTitle },
   { header := some "Episode", accessor := .episode_number },
   { header := none, accessor := .episodeTitle },
   { header := some "Path", accessor := .path },
   { header := some "Release", accessor := .sceneName,
     className := some "width6em text-center" },
   { header := some "Missing", accessor := .missing_subtitles }]

/-- The anchor element rendered by the Name cell: class, link target and
link text. -/
structure AnchorElement where
  className : StyleName
  target : String
  text : String
  deriving Repr, DecidableEq

/-- The Name cell: an anchor styled with the `primary` preset, linking to
the series detail page, showing the accessed `seriesTitle` value. -/
def nameCell (w : WantedEpisode) : AnchorElement :=
  { className := StyleName.primary,
    target := "/series/" ++ toString w.sonarrSeriesId,
    text := w.seriesTitle }

/-- A text element carrying a preset class. -/
structure TextElement where
  className : Option StyleName
  text : String
  deriving Repr, DecidableEq

/-- The unlabeled episode-title cell: text styled with the
`noWrap` preset. -/
def episodeTitleCell (value : String) : TextElement :=
  { className := some StyleName.noWrap, text := value }

/-- The Path cell: text styled with the `width7em` preset. -/
def pathCell (value : String) : TextElement :=
  { className := some StyleName.width7em, text := value }

/-- A FontAwesome icon element. -/
structure IconElement where
  icon : String
  size : Option String := none
  deriving Repr, DecidableEq

/-- A popover wrapping a child element, showing `text` on hover. -/
structure PopoverElement where
  text : Option String
  child : IconElement
  deriving Repr, DecidableEq

/-- The Release cell: a file-lines icon wrapped in a popover whose text
is the record's (possibly absent) `sceneName`; no guard on the missing
field. -/
def releaseCell (w : WantedEpisode) : PopoverElement :=
  { text := w.sceneName,
    child := { icon := "faFileLines", size := some "2x" } }

/-- A rendered Missing badge: color (gray while the download mutation is
loading), left-section icon, key (index paired with the language code,
as built by `BuildKey`), cursor style, whether an onClick handler is
attached, the tasks one firing of that handler enqueues, and the label. -/
structure BadgeElement where
  color : Option String
  leftSection : String
  key : Nat × String
  cursor : String
  hasOnClick : Bool
  onClickTasks : List TaskRecord
  label : String
  deriving Repr, DecidableEq

/-- The badge produced for entry `item` at position `idx` of the
missing-subtitle list, with the download mutation's `isLoading` flag. -/
def renderBadge (isLoading : Bool) (seriesId episodeId : Nat)
    (idx : Nat) (item : LanguageItem) : BadgeElement :=
  { color := if isLoading then some "gray" else none,
    leftSection := "faSearch",
    key := (idx, item.code2),
    cursor := "pointer",
    hasOnClick := true,
    onClickTasks :=
      taskCreate item.name TaskGroup.SearchSubtitle
        { seriesId := seriesId,
          episodeId := episodeId,
          form :=
            { language := item.code2,
              hi := item.hi,
              forced := item.forced } },
    label := languageText item }

/-- The Missing cell: one badge per entry of the record's
missing-subtitle list, in order (the `value.map((item, idx) => ...)` of
the source). -/
def missingCell (isLoading : Bool) (w : WantedEpisode) : List BadgeElement :=
  w.missing_subtitles.enum.map fun p =>
    renderBadge isLoading w.sonarrSeriesId w.sonarrEpisodeId p.1 p.2

/-- Clicking a badge fires its handler when one is attached; a badge
without a handler enqueues nothing. -/
def clickBadge (b : BadgeElement) : List TaskRecord :=
  if b.hasOnClick then b.onClickTasks else []

/-- Payload of the series bulk-action mutation. -/
structure SeriesActionPayload where
  action : String
  deriving Repr, DecidableEq

/-- The page's `searchAll` prop: the list of series-action mutation
invocations one call performs
(`() => mutateAsync({ action: "search-wanted" })`). -/
def searchAll : List SeriesActionPayload :=
  [{ action := "search-wanted" }]

/-- English language entry used as a concrete witness input. -/
def enItem : LanguageItem :=
  { code2 := "en", name := "English", hi := false, forced := false }

/-- French language entry used as a concrete witness input. -/
def frItem : LanguageItem :=
  { code2 := "fr", name := "French", hi := false, forced := true }

/-- Concrete episode record with one missing language. -/
def sampleEpisode : WantedEpisode :=
  { sonarrSeriesId := 1, sonarrEpisodeId := 42, seriesTitle := "Sample Show",
    episode_number := "1x01", episodeTitle := "Pilot", path := "/tv/sample.mkv",
    sceneName := none, missing_subtitles := [enItem] }

/-- Concrete episode record with two missing languages. -/
def sampleEpisode2 : WantedEpisode :=
  { sonarrSeriesId := 7, sonarrEpisodeId := 9, seriesTitle := "Other Show",
    episode_number := "2x03", episodeTitle := "Middle", path := "/tv/other.mkv",
    sceneName := some "Other.Show.S02E03.1080p", missing_subtitles := [enItem, frItem] }

/-- The Missing cell renders as many badges as the record has
missing-subtitle entries. -/
theorem missingCell_length (isLoading : Bool) (w : WantedEpisode) :
    (missingCell isLoading w).length = w.missing_subtitles.length := by
  simp [missingCell]

/-- The badge at position `i` of the Missing cell is the rendering of the
`i`-th missing-subtitle entry. -/
theorem missingCell_getElem (isLoading : Bool) (w : WantedEpisode) (i : Nat)
    (item : LanguageItem) (h : w.missing_subtitles[i]? = some item) :
    (missingCell isLoading w)[i]? =
      some (renderBadge isLoading w.sonarrSeriesId w.sonarrEpisodeId i item) := by
  simp [missingCell, List.getElem?_map, List.getElem?_enum, h]

/-- Claim C1: clicking the badge of the `i`-th missing-subtitle entry
enqueues exactly one task whose payload carries the record's series and
episode identifiers and the entry's code, hearing-impaired flag and
forced flag. -/
theorem badge_click_enqueues_exactly_one_search_task
    (isLoading : Bool) (w : WantedEpisode) (i : Nat) (item : LanguageItem)
    (h : w.missing_subtitles[i]? = some item) :
    ∃ b, (missingCell isLoading w)[i]? = some b ∧
      clickBadge b =
        [{ name := item.name, group := TaskGroup.SearchSubtitle,
           payload :=
             { seriesId := w.sonarrSeriesId, episodeId := w.sonarrEpisodeId,
               form :=
                 { language := item.code2, hi := item.hi,
                   forced := item.forced } } }] :=
  ⟨_, missingCell_getElem isLoading w i item h, rfl⟩

/-- Claim C1 witness: on (seriesId=1, episodeId=42) with language "en",
hi=false, forced=false, the enqueued payload is exactly as claimed. -/
theorem badge_click_enqueues_exactly_one_search_task_witness :
    ∃ b, (missingCell false sampleEpisode)[0]? = some b ∧
      clickBadge b =
        [{ name := "English", group := TaskGroup.SearchSubtitle,
           payload :=
             { seriesId := 1, episodeId := 42,
               form := { language := "en", hi := false, forced := false } } }] :=
  badge_click_enqueues_exactly_one_search_task false sampleEpisode 0 enItem rfl

/-- Claim C2: the Missing cell contains exactly as many badges as the
record's missing-subtitle list has entries, and the badge at each
position is labeled with that entry's language display name. -/
theorem missing_cell_one_badge_per_entry
    (isLoading : Bool) (w : WantedEpisode) :
    (missingCell isLoading w).length = w.missing_subtitles.length ∧
    ∀ (i : Nat) (item : LanguageItem), w.missing_subtitles[i]? = some item →
      ∃ b : BadgeElement,
        (missingCell isLoading w)[i]? = some b ∧ b.label = item.name := by
  refine ⟨missingCell_length isLoading w, ?_⟩
  intro i item h
  exact ⟨renderBadge isLoading w.sonarrSeriesId w.sonarrEpisodeId i item,
    missingCell_getElem isLoading w i item h, rfl⟩

/-- Claim C2 witness: a record with two missing languages renders two
badges, the second labeled with the second entry's display name. -/
theorem missing_cell_one_badge_per_entry_witness :
    (missingCell false sampleEpisode2).length = 2 ∧
    ∃ b, (missingCell false sampleEpisode2)[1]? = some b ∧ b.label = "French" :=
  ⟨(missing_cell_one_badge_per_entry false sampleEpisode2).1.trans rfl,
   (missing_cell_one_badge_per_entry false sampleEpisode2).2 1 frItem rfl⟩

/-- Claim C3: while the download mutation is loading, every badge is
rendered gray, yet its click handler is still attached and a click still
enqueues one task; a second click enqueues a second, identical request. -/
theorem loading_badge_gray_but_still_clickable
    (w : WantedEpisode) (i : Nat) (item : LanguageItem)
    (h : w.missing_subtitles[i]? = some item) :
    ∃ b, (missingCell true w)[i]? = some b ∧
      b.color = some "gray" ∧ b.hasOnClick = true ∧
      (clickBadge b).length = 1 ∧
      (clickBadge b ++ clickBadge b).length = 2 :=
  ⟨_, missingCell_getElem true w i item h, rfl, rfl, rfl, rfl⟩

/-- Claim C3 witness: the concrete loading-state badge is gray, still
clickable, and each click enqueues one task. -/
theorem loading_badge_gray_but_still_clickable_witness :
    ∃ b, (missingCell true sampleEpisode)[0]? = some b ∧
      b.color = some "gray" ∧ b.hasOnClick = true ∧
      (clickBadge b).length = 1 ∧
      (clickBadge b ++ clickBadge b).length = 2 :=
  loading_badge_gray_but_still_clickable sampleEpisode 0 enItem rfl

/-- Claim C4 counterexample: while the download mutation is in flight
(isLoading = true), the rendered badge still has its click handler
attached and clicking it enqueues a task, contrary to the claim that a
click never enqueues while a search is in flight. -/
theorem inflight_badge_click_still_enqueues :
    ∃ b, (missingCell true sampleEpisode)[0]? = some b ∧
      b.hasOnClick = true ∧ clickBadge b ≠ [] := by
  refine ⟨renderBadge true 1 42 0 enItem, rfl, rfl, ?_⟩
  decide

/-- Claim C4 amended: while the download mutation is in flight, badges
are rendered greyed but remain click-enabled, and clicking one still
enqueues exactly one search task. -/
theorem inflight_badge_greyed_yet_click_enabled
    (w : WantedEpisode) (i : Nat) (item : LanguageItem)
    (h : w.missing_subtitles[i]? = some item) :
    ∃ b, (missingCell true w)[i]? = some b ∧
      b.color = some "gray" ∧ b.hasOnClick = true ∧
      (clickBadge b).length = 1 :=
  ⟨_, missingCell_getElem true w i item h, rfl, rfl, rfl⟩

/-- Claim C4 amended witness: the amended statement at the concrete
record with one missing language. -/
theorem inflight_badge_greyed_yet_click_enabled_witness :
    ∃ b, (missingCell true sampleEpisode2)[0]? = some b ∧
      b.color = some "gray" ∧ b.hasOnClick = true ∧
      (clickBadge b).length = 1 :=
  inflight_badge_greyed_yet_click_enabled sampleEpisode2 0 enItem rfl

/-- Claim C5: one invocation of the page's search-all action performs
exactly one series-action mutation call, with the action tag
"search-wanted" and no other. -/
theorem search_all_invokes_search_wanted_once :
    searchAll = [{ action := "search-wanted" }] ∧ searchAll.length = 1 :=
  ⟨rfl, rfl⟩

/-- Claim C6: the Name cell renders an anchor whose target is
`/series/{sonarrSeriesId}`, whose text is the record's series title, and
which carries the primary style preset. -/
theorem name_cell_links_to_series_page (w : WantedEpisode) :
    (nameCell w).target = "/series/" ++ toString w.sonarrSeriesId ∧
    (nameCell w).text = w.seriesTitle ∧
    (nameCell w).className = StyleName.primary :=
  ⟨rfl, rfl, rfl⟩

/-- Claim C7: the column schema is a fixed ordered list computed with an
empty dependency set: Name/seriesTitle, Episode/episode_number, an
unlabeled episodeTitle column rendered no-wrap, Path/path rendered with
the 7em fixed-width preset, Release/sceneName (icon with popover), and
Missing/missing_subtitles. -/
theorem column_schema_fixed_and_ordered :
    columnsDeps = [] ∧
    columns.map ColumnDescriptor.header =
      [some "Name", some "Episode", none, some "Path", some "Release",
       some "Missing"] ∧
    columns.map ColumnDescriptor.accessor =
      [.seriesTitle, .episode_number, .episodeTitle, .path, .sceneName,
       .missing_subtitles] ∧
    (∀ v, (episodeTitleCell v).className = some StyleName.noWrap) ∧
    (∀ v, (pathCell v).className = some StyleName.width7em) ∧
    (∀ w : WantedEpisode,
      (releaseCell w).child.icon = "faFileLines" ∧
      (releaseCell w).text = w.sceneName) :=
  ⟨rfl, rfl, rfl, fun _ => rfl, fun _ => rfl, fun _ => ⟨rfl, rfl⟩⟩

/-- Claim C8: the style preset table is deterministic (two lookups of
the same name under the same theme agree), its key set is fixed (the 13
names, each occurring once), and every widthNem preset fixes width to
exactly N em. -/
theorem style_presets_deterministic_and_fixed (theme : Theme) :
    (∀ n : StyleName, useTableStyles theme n = useTableStyles theme n) ∧
    (∀ n : StyleName, n ∈ styleKeys) ∧ styleKeys.Nodup ∧
    (useTableStyles theme .width1em).width = some "1em" ∧
    (useTableStyles theme .width2em).width = some "2em" ∧
    (useTableStyles theme .width3em).width = some "3em" ∧
    (useTableStyles theme .width4em).width = some "4em" ∧
    (useTableStyles theme .width5em).width = some "5em" ∧
    (useTableStyles theme .width6em).width = some "6em" ∧
    (useTableStyles theme .width7em).width = some "7em" ∧
    (useTableStyles theme .width8em).width = some "8em" ∧
    (useTableStyles theme .width9em).width = some "9em" ∧
    (useTableStyles theme .width10em).width = some "10em" := by
  refine ⟨fun n => rfl, fun n => ?_, by decide,
    rfl, rfl, rfl, rfl, rfl, rfl, rfl, rfl, rfl, rfl⟩
  cases n <;> decide

/-- Claim C9: every badge's registered task is named with the language
entry's display name and grouped under the SearchSubtitle task group. -/
theorem badge_task_named_by_language_in_search_group
    (isLoading : Bool) (w : WantedEpisode) (i : Nat) (item : LanguageItem)
    (h : w.missing_subtitles[i]? = some item) :
    ∃ b : BadgeElement, (missingCell isLoading w)[i]? = some b ∧
      ∀ t ∈ b.onClickTasks,
        t.name = item.name ∧ t.group = TaskGroup.SearchSubtitle := by
  refine ⟨renderBadge isLoading w.sonarrSeriesId w.sonarrEpisodeId i item,
    missingCell_getElem isLoading w i item h, ?_⟩
  intro t ht
  rw [List.mem_singleton.mp ht]
  exact ⟨rfl, rfl⟩

/-- Claim C9 witness: the concrete French badge's task is named "French"
and grouped under SearchSubtitle. -/
theorem badge_task_named_by_language_in_search_group_witness :
    ∃ b : BadgeElement, (missingCell false sampleEpisode2)[1]? = some b ∧
      ∀ t ∈ b.onClickTasks,
        t.name = "French" ∧ t.group = TaskGroup.SearchSubtitle :=
  badge_task_named_by_language_in_search_group false sampleEpisode2 1 frItem rfl

/-- Claim C10: the Release cell is total: for every record, also one
whose sceneName is absent, it produces the file-lines icon wrapped in a
popover whose text is the (possibly absent) sceneName. -/
theorem release_cell_total_popover (w : WantedEpisode) :
    releaseCell w =
      { text := w.sceneName,
        child := { icon := "faFileLines", size := some "2x" } } ∧
    releaseCell { w with sceneName := none } =
      { text := none,
        child := { icon := "faFileLines", size := some "2x" } } :=
  ⟨rfl, rfl⟩
